import Mathlib

/-!
Verification of the client-side issue synchronization and filtering layer of
the github-issue-automation dashboard.  The definitions below are a shallow
embedding of the Redux slices (`issuesSlice`, `repositorySlice`), the
`fetchIssues` / `retryAutomation` thunks and the dashboard page's
`validateAndAddRepository` handler; JS objects become Lean structures, JS
object maps become association lists, `fetch` responses become explicit
response values, and thrown errors become `Except.error`.
-/

/-- Embedding of the `AutomationStatus` TS type: `status` is one of
"pending" | "running" | "completed" | "failed" | null (null = `none`); the
remaining fields are optional. -/
structure AutomationStatus where
  status : Option String
  started_at : Option String := none
  completed_at : Option String := none
  error_message : Option String := none
  task_id : Option String := none
deriving DecidableEq, Repr

/-- A `name`/`color` pair from `GitHubIssue.labels`. -/
structure IssueLabel where
  name : String
  color : String
deriving DecidableEq, Repr

/-- A `login`/`avatar_url` pair (issue author or assignee). -/
structure IssueUser where
  login : String
  avatar_url : String
deriving DecidableEq, Repr

/-- Embedding of the `GitHubIssue` TS type.  `body` is nullable,
`automation_status` is optional (absent = `none`). -/
structure GitHubIssue where
  id : Nat
  number : Nat
  title : String
  body : Option String
  state : String
  created_at : String
  updated_at : String
  html_url : String
  user : IssueUser
  labels : List IssueLabel
  assignees : List IssueUser
  automation_status : Option AutomationStatus := none
deriving DecidableEq, Repr

/-- An item of the array returned by the GitHub issues endpoint: an issue
object which may additionally carry a `pull_request` marker field
(`GitHubIssue & \x7b pull_request?: unknown \x7d` in the source). -/
structure FetchedItem where
  issue : GitHubIssue
  pull_request : Option Unit := none
deriving DecidableEq, Repr

/-- The merge step of `fetchIssues` (issuesSlice lines 94-99):
`issues.map (issue => (\x7b ...issue, automation_status:
automationStatuses[issue.number.toString()] || null \x7d))`.
The JS object `automationStatuses` is embedded as an association list keyed
by the issue number rendered in decimal; a missing key yields `null`
(`none`).  An `AutomationStatus` object is always truthy in JS, so
`x || null` is exactly the association-list lookup. -/
def mergeAutomationStatuses (automationStatuses : List (String × AutomationStatus))
    (issues : List GitHubIssue) : List GitHubIssue :=
  issues.map fun issue =>
    { issue with automation_status := automationStatuses.lookup (toString issue.number) }

/-- The client-side pull-request filter of `fetchIssues` (lines 78-82):
`data.filter (item => !item.pull_request)`. -/
def filterOutPullRequests (data : List FetchedItem) : List FetchedItem :=
  data.filter fun item => item.pull_request.isNone

/-- Association-list lookup returns `none` when the key is not among the
keys of the list. -/
theorem lookup_eq_none_of_not_mem_keys (k : String)
    (m : List (String × AutomationStatus)) (h : k ∉ m.map Prod.fst) :
    m.lookup k = none := by
  induction m with
  | nil => rfl
  | cons p t ih =>
    simp only [List.map_cons, List.mem_cons, not_or] at h
    obtain ⟨h1, h2⟩ := h
    have hbeq : (k == p.1) = false := by
      simp [beq_eq_false_iff_ne]
      exact h1
    cases p with
    | mk a b =>
      simp only [List.lookup] at *
      rw [hbeq]
      exact ih h2

/-- Embedding of `IssuesState["filters"]`: the five always-populated filter
fields (TS string unions become `String`). -/
structure IssueFilters where
  state : String
  assignee : String
  label : String
  sort : String
  direction : String
deriving DecidableEq, Repr

/-- Embedding of `Partial<IssuesState["filters"]>`: each field may be absent. -/
structure PartialIssueFilters where
  state : Option String := none
  assignee : Option String := none
  label : Option String := none
  sort : Option String := none
  direction : Option String := none
deriving DecidableEq, Repr

/-- JS `v || d` on an optional string: falls back to `d` when the value is
absent or the empty string (the only falsy strings). -/
def jsOr (v : Option String) (d : String) : String :=
  match v with
  | some s => if s == "" then d else s
  | none => d

/-- The query construction of `fetchIssues` (issuesSlice lines 42-58) as the
ordered list of appended `URLSearchParams` pairs:
`state` when `filters?.state` is truthy and not "all", `assignee` when
truthy, `labels` when `filters?.label` is truthy, then unconditional
`sort` (default "created"), `direction` (default "desc") and
`per_page=100`. -/
def buildQueryParams (filters : Option PartialIssueFilters) : List (String × String) :=
  (match filters.bind PartialIssueFilters.state with
    | some s => if s != "" && s != "all" then [("state", s)] else []
    | none => []) ++
  (match filters.bind PartialIssueFilters.assignee with
    | some s => if s != "" then [("assignee", s)] else []
    | none => []) ++
  (match filters.bind PartialIssueFilters.label with
    | some s => if s != "" then [("labels", s)] else []
    | none => []) ++
  [("sort", jsOr (filters.bind PartialIssueFilters.sort) "created"),
   ("direction", jsOr (filters.bind PartialIssueFilters.direction) "desc"),
   ("per_page", "100")]

/-- A fully-populated criteria value passed as the thunk's partial-filters
argument (every field present). -/
def toPartialFilters (f : IssueFilters) : PartialIssueFilters :=
  { state := some f.state, assignee := some f.assignee, label := some f.label,
    sort := some f.sort, direction := some f.direction }

/-- Claim C1: the merge step of `fetchIssues` produces a list of the same
length and order in which every issue at position `i` equals the original
issue with only its `automation_status` replaced by the mapping's entry for
its number rendered as a string; issues whose number-string is a key get
the mapped value, and every other issue ends with `automation_status =
none` ("not merged"). -/
theorem mergeAutomationStatuses_spec (m : List (String × AutomationStatus))
    (issues : List GitHubIssue) :
    (mergeAutomationStatuses m issues).length = issues.length ∧
    (∀ i : Nat, (mergeAutomationStatuses m issues)[i]? =
      (issues[i]?).map fun issue =>
        { issue with automation_status := m.lookup (toString issue.number) }) ∧
    (∀ issue ∈ issues, toString issue.number ∉ m.map Prod.fst →
      ∀ i : Nat, issues[i]? = some issue →
        (mergeAutomationStatuses m issues)[i]? =
          some { issue with automation_status := none }) := by
  refine ⟨?_, ?_, ?_⟩
  · simp [mergeAutomationStatuses]
  · intro i
    simp [mergeAutomationStatuses, List.getElem?_map]
  · intro issue _ hkey i hi
    simp [mergeAutomationStatuses, List.getElem?_map, hi,
      lookup_eq_none_of_not_mem_keys _ _ hkey]

/-- Concrete instantiation of `mergeAutomationStatuses_spec`: a two-issue
list, a mapping holding only issue 1. -/
theorem mergeAutomationStatuses_spec_witness :
    let iss1 : GitHubIssue :=
      { id := 1, number := 1, title := "a", body := none, state := "open",
        created_at := "", updated_at := "", html_url := "",
        user := ⟨"u", ""⟩, labels := [], assignees := [] }
    let iss2 : GitHubIssue :=
      { id := 2, number := 2, title := "b", body := none, state := "open",
        created_at := "", updated_at := "", html_url := "",
        user := ⟨"u", ""⟩, labels := [], assignees := [] }
    let m : List (String × AutomationStatus) := [("1", { status := some "completed" })]
    (mergeAutomationStatuses m [iss1, iss2]).length = 2 ∧
    (mergeAutomationStatuses m [iss1, iss2])[1]? =
      some { iss2 with automation_status := none } := by
  intro iss1 iss2 m
  refine ⟨(mergeAutomationStatuses_spec m [iss1, iss2]).1, ?_⟩
  exact (mergeAutomationStatuses_spec m [iss1, iss2]).2.2 iss2 (by decide)
    (by decide) 1 (by decide)

/-- Claim C3: the pull-request filter removes exactly the items carrying the
`pull_request` marker: the result has no marked item, is a subsequence of
the input (relative order preserved), and contains precisely the unmarked
items of the input. -/
theorem filterOutPullRequests_spec (data : List FetchedItem) :
    ((filterOutPullRequests data).all fun item => item.pull_request.isNone) = true ∧
    (filterOutPullRequests data).Sublist data ∧
    (∀ item : FetchedItem,
      item ∈ filterOutPullRequests data ↔ item ∈ data ∧ item.pull_request = none) := by
  refine ⟨?_, List.filter_sublist data, ?_⟩
  · simp only [List.all_eq_true, filterOutPullRequests]
    intro item hitem
    exact (List.mem_filter.mp hitem).2
  · intro item
    simp [filterOutPullRequests, List.mem_filter, Option.isNone_iff_eq_none]

/-- Concrete instantiation of `filterOutPullRequests_spec`: a PR-marked item
between two plain issues is removed and the rest keep their order. -/
theorem filterOutPullRequests_spec_witness :
    let iss : GitHubIssue :=
      { id := 1, number := 1, title := "a", body := none, state := "open",
        created_at := "", updated_at := "", html_url := "",
        user := ⟨"u", ""⟩, labels := [], assignees := [] }
    let plain1 : FetchedItem := { issue := iss }
    let pr : FetchedItem := { issue := { iss with id := 2, number := 2 },
                              pull_request := some () }
    let plain2 : FetchedItem := { issue := { iss with id := 3, number := 3 } }
    (pr ∈ filterOutPullRequests [plain1, pr, plain2] ↔
      pr ∈ [plain1, pr, plain2] ∧ pr.pull_request = none) ∧
    (filterOutPullRequests [plain1, pr, plain2]).Sublist [plain1, pr, plain2] := by
  intro iss plain1 pr plain2
  exact ⟨(filterOutPullRequests_spec [plain1, pr, plain2]).2.2 pr,
    (filterOutPullRequests_spec [plain1, pr, plain2]).2.1⟩

/-- Claim C8: the automation-status merge is idempotent: merging the same
mapping twice equals merging once. -/
theorem mergeAutomationStatuses_idempotent (m : List (String × AutomationStatus))
    (issues : List GitHubIssue) :
    mergeAutomationStatuses m (mergeAutomationStatuses m issues) =
      mergeAutomationStatuses m issues := by
  induction issues with
  | nil => rfl
  | cons issue rest ih =>
    simp only [mergeAutomationStatuses, List.map_cons, List.map_map] at *
    exact List.cons_eq_cons.mpr ⟨rfl, ih⟩


/-- Normal form of the query built from fully-populated criteria: the
Boolean truthiness tests become propositional conditions. -/
theorem buildQueryParams_full_eq (f : IssueFilters) :
    buildQueryParams (some (toPartialFilters f)) =
      (if f.state ≠ "" ∧ f.state ≠ "all" then [("state", f.state)] else []) ++
      (if f.assignee ≠ "" then [("assignee", f.assignee)] else []) ++
      (if f.label ≠ "" then [("labels", f.label)] else []) ++
      [("sort", if f.sort = "" then "created" else f.sort),
       ("direction", if f.direction = "" then "desc" else f.direction),
       ("per_page", "100")] := by
  simp only [buildQueryParams, toPartialFilters, jsOr, Option.bind_some,
    Bool.and_eq_true, bne_iff_ne, beq_iff_eq]
  by_cases hs : f.state = "" <;> by_cases ha : f.state = "all" <;>
    simp [hs, ha]

/-- Claim C2: for fully-populated criteria (with the enum fields drawn from
their TS union types), the built query contains a `state` pair iff the state
is not "all", an `assignee` pair iff the assignee is non-empty, a `labels`
pair iff the label is non-empty, and always `sort`, `direction` and
`per_page=100` with the criteria's values. -/
theorem buildQueryParams_spec (f : IssueFilters)
    (hstate : f.state = "all" ∨ f.state = "open" ∨ f.state = "closed")
    (hsort : f.sort = "created" ∨ f.sort = "updated" ∨ f.sort = "comments")
    (hdir : f.direction = "asc" ∨ f.direction = "desc") :
    ((∃ v, ("state", v) ∈ buildQueryParams (some (toPartialFilters f))) ↔
        f.state ≠ "all") ∧
    (f.state ≠ "all" → ("state", f.state) ∈ buildQueryParams (some (toPartialFilters f))) ∧
    ((∃ v, ("assignee", v) ∈ buildQueryParams (some (toPartialFilters f))) ↔
        f.assignee ≠ "") ∧
    (f.assignee ≠ "" →
      ("assignee", f.assignee) ∈ buildQueryParams (some (toPartialFilters f))) ∧
    ((∃ v, ("labels", v) ∈ buildQueryParams (some (toPartialFilters f))) ↔
        f.label ≠ "") ∧
    (f.label ≠ "" →
      ("labels", f.label) ∈ buildQueryParams (some (toPartialFilters f))) ∧
    ("sort", f.sort) ∈ buildQueryParams (some (toPartialFilters f)) ∧
    ("direction", f.direction) ∈ buildQueryParams (some (toPartialFilters f)) ∧
    ("per_page", "100") ∈ buildQueryParams (some (toPartialFilters f)) := by
  have hsne : f.sort ≠ "" := by rcases hsort with h | h | h <;> simp [h]
  have hdne : f.direction ≠ "" := by rcases hdir with h | h <;> simp [h]
  rw [buildQueryParams_full_eq]
  rw [if_neg hsne, if_neg hdne]
  by_cases ha : f.assignee = "" <;> by_cases hl : f.label = "" <;>
    rcases hstate with h1 | h1 | h1 <;>
    simp [h1, ha, hl, List.mem_append, Prod.ext_iff]

/-- Concrete instantiation of `buildQueryParams_spec`: the scenario filters
state "open", sort "created", direction "desc", empty assignee and label:
the query is exactly state=open&sort=created&direction=desc&per_page=100,
with no assignee and no labels pair. -/
theorem buildQueryParams_spec_witness :
    buildQueryParams (some (toPartialFilters
        ⟨"open", "", "", "created", "desc"⟩)) =
      [("state", "open"), ("sort", "created"), ("direction", "desc"),
       ("per_page", "100")] ∧
    ("state", "open") ∈ buildQueryParams (some (toPartialFilters
        ⟨"open", "", "", "created", "desc"⟩)) ∧
    ¬ (∃ v, ("assignee", v) ∈ buildQueryParams (some (toPartialFilters
        ⟨"open", "", "", "created", "desc"⟩))) := by
  refine ⟨by decide, ?_, ?_⟩
  · exact (buildQueryParams_spec ⟨"open", "", "", "created", "desc"⟩
      (by simp) (by simp) (by simp)).2.1 (by simp)
  · intro hv
    exact absurd ((buildQueryParams_spec ⟨"open", "", "", "created", "desc"⟩
      (by simp) (by simp) (by simp)).2.2.1.mp hv) (by simp)

/-- A `fetch` response: `ok`, `status`, `statusText` and the decoded JSON
body. -/
structure HttpResponse (α : Type) where
  ok : Bool
  status : Nat
  statusText : String
  body : α
deriving DecidableEq, Repr

/-- The error thrown by `fetchIssues` on a non-ok GitHub response, carrying
the HTTP status and reason phrase. -/
structure GitHubFetchError where
  status : Nat
  statusText : String
deriving DecidableEq, Repr

/-- The message of the error thrown on a non-ok GitHub response:
`GitHub API error: $\x7bresponse.status\x7d $\x7bresponse.statusText\x7d`. -/
def githubErrorMessage (status : Nat) (statusText : String) : String :=
  "GitHub API error: " ++ toString status ++ " " ++ statusText

/-- The body of the automation-status endpoint's response:
`automationData.automation_statuses || \x7b\x7d` — the field may be absent
(`none`), in which case the empty mapping is used. -/
def automationStatusesOf
    (body : Option (List (String × AutomationStatus))) :
    List (String × AutomationStatus) :=
  body.getD []

/-- The `fetchIssues` thunk (issuesSlice lines 31-107) as a function of the
two remote responses.  The primary GitHub response is a received response
value; a non-ok response throws (`Except.error`).  The automation-status
request may fail at transport level (`Except.error ()`) or return a
response; only an ok automation response triggers the merge, every other
outcome falls through to returning the pull-request-filtered issues. -/
def fetchIssuesModel (primary : HttpResponse (List FetchedItem))
    (automation : Except Unit (HttpResponse (Option (List (String × AutomationStatus))))) :
    Except GitHubFetchError (List GitHubIssue) :=
  if !primary.ok then
    .error { status := primary.status, statusText := primary.statusText }
  else
    let issues := (filterOutPullRequests primary.body).map FetchedItem.issue
    match automation with
    | .ok aresp =>
      if aresp.ok then
        .ok (mergeAutomationStatuses (automationStatusesOf aresp.body) issues)
      else
        .ok issues
    | .error _ => .ok issues

/-- The `retryAutomation` thunk (issuesSlice lines 109-136) as a function of
the backend response: ok yields the payload
`\x7b issueNumber, status: "pending" \x7d`; non-ok throws
`Failed to retry automation: $\x7bresponse.status\x7d`. -/
structure RetryPayload where
  issueNumber : Nat
  status : String
deriving DecidableEq, Repr

def retryAutomationModel (issueNumber : Nat) (response : HttpResponse Unit) :
    Except String RetryPayload :=
  if !response.ok then
    .error ("Failed to retry automation: " ++ toString response.status)
  else
    .ok { issueNumber := issueNumber, status := "pending" }

/-- Embedding of `IssuesState`. -/
structure IssuesState where
  issues : List GitHubIssue
  loading : Bool
  error : Option String
  filters : IssueFilters
deriving DecidableEq, Repr

/-- The slice's `initialState`. -/
def initialIssuesState : IssuesState :=
  { issues := [], loading := false, error := none,
    filters := { state := "all", assignee := "", label := "",
                 sort := "created", direction := "desc" } }

/-- JS object spread `\x7b ...state.filters, ...action.payload \x7d`:
fields present in the payload overwrite, absent fields persist. -/
def spreadFilters (current : IssueFilters) (payload : PartialIssueFilters) :
    IssueFilters :=
  { state := payload.state.getD current.state,
    assignee := payload.assignee.getD current.assignee,
    label := payload.label.getD current.label,
    sort := payload.sort.getD current.sort,
    direction := payload.direction.getD current.direction }

/-- `state.issues.find(issue => issue.number === n)` followed by the in-place
mutation `issue.automation_status = st`: the first issue whose number is `n`
gets the new status, everything else is untouched. -/
def setAutomationStatusOnFirst (issues : List GitHubIssue) (n : Nat)
    (st : AutomationStatus) : List GitHubIssue :=
  match issues with
  | [] => []
  | issue :: rest =>
    if issue.number == n then
      { issue with automation_status := some st } :: rest
    else
      issue :: setAutomationStatusOnFirst rest n st

/-- The optimistic status written by the `retryAutomation.fulfilled` handler:
`\x7b status: "pending" \x7d`. -/
def pendingStatus : AutomationStatus := { status := some "pending" }

/-- The actions handled by `issuesSlice` (its own reducers plus the
`extraReducers` cases).  `retryAutomationPending` and
`retryAutomationRejected` have no registered case handler, so Redux leaves
the state unchanged for them. -/
inductive IssuesAction
  | setFilters (payload : PartialIssueFilters)
  | clearError
  | clearIssues
  | updateIssueAutomationStatus (issueNumber : Nat) (status : AutomationStatus)
  | fetchIssuesPending
  | fetchIssuesFulfilled (payload : List GitHubIssue)
  | fetchIssuesRejected (errorMessage : Option String)
  | retryAutomationPending
  | retryAutomationFulfilled (payload : RetryPayload)
  | retryAutomationRejected (errorMessage : Option String)
deriving DecidableEq, Repr

/-- The reducer of `issuesSlice` (lines 138-190). -/
def issuesReducer (s : IssuesState) (a : IssuesAction) : IssuesState :=
  match a with
  | .setFilters payload => { s with filters := spreadFilters s.filters payload }
  | .clearError => { s with error := none }
  | .clearIssues => { s with issues := [] }
  | .updateIssueAutomationStatus n st =>
      { s with issues := setAutomationStatusOnFirst s.issues n st }
  | .fetchIssuesPending => { s with loading := true, error := none }
  | .fetchIssuesFulfilled payload =>
      { s with loading := false, issues := payload, error := none }
  | .fetchIssuesRejected m =>
      { s with loading := false, error := some (jsOr m "Failed to fetch issues") }
  | .retryAutomationPending => s
  | .retryAutomationFulfilled payload =>
      { s with issues := setAutomationStatusOnFirst s.issues payload.issueNumber
                           pendingStatus }
  | .retryAutomationRejected _ => s

/-- Substring test on character lists: some suffix of the haystack starts
with the needle. -/
def listContainsSub (hay needle : List Char) : Bool :=
  match hay with
  | [] => needle.isEmpty
  | c :: t => needle.isPrefixOf (c :: t) || listContainsSub t needle

/-- Substring test on strings. -/
def strContainsSub (hay needle : String) : Bool :=
  listContainsSub hay.data needle.data

/-- String append acts as list append on the underlying character data. -/
theorem string_data_append (a b : String) : (a ++ b).data = a.data ++ b.data := by
  cases a
  cases b
  rfl

theorem isPrefixOf_append_self (n b : List Char) : n.isPrefixOf (n ++ b) = true := by
  induction n with
  | nil => cases b <;> simp [List.isPrefixOf]
  | cons c t ih => simp [List.isPrefixOf, ih]

theorem listContainsSub_append_left (a b needle : List Char)
    (h : listContainsSub b needle = true) :
    listContainsSub (a ++ b) needle = true := by
  induction a with
  | nil => simpa using h
  | cons c t ih => simp [listContainsSub, ih]

theorem listContainsSub_self_append (n b : List Char) :
    listContainsSub (n ++ b) n = true := by
  cases n with
  | nil =>
    cases b <;> simp [listContainsSub, List.isPrefixOf, List.isEmpty]
  | cons c t =>
    simp [listContainsSub, isPrefixOf_append_self]

theorem listContainsSub_refl (n : List Char) : listContainsSub n n = true := by
  have h := listContainsSub_self_append n []
  rwa [List.append_nil] at h

/-- A string append with a non-empty left part is non-empty. -/
theorem append_ne_empty_of_left (a b : String) (h : a ≠ "") : a ++ b ≠ "" := by
  intro hab
  apply h
  have hd : (a ++ b).data = ("" : String).data := congrArg String.data hab
  rw [string_data_append] at hd
  have ha : a.data = [] := (List.append_eq_nil.mp hd).1
  cases a with
  | mk d =>
    show String.mk d = String.mk []
    rw [show d = [] from ha]

theorem githubErrorMessage_ne_empty (status : Nat) (statusText : String) :
    githubErrorMessage status statusText ≠ "" := by
  unfold githubErrorMessage
  exact append_ne_empty_of_left _ _
    (append_ne_empty_of_left _ _ (append_ne_empty_of_left _ _ (by decide)))

/-- The GitHub error message contains the decimal rendering of the status. -/
theorem githubErrorMessage_contains_status (status : Nat) (statusText : String) :
    strContainsSub (githubErrorMessage status statusText) (toString status) = true := by
  unfold strContainsSub githubErrorMessage
  rw [string_data_append, string_data_append, string_data_append,
    List.append_assoc, List.append_assoc]
  exact listContainsSub_append_left _ _ _ (listContainsSub_self_append _ _)

theorem setAutomationStatusOnFirst_length (l : List GitHubIssue) (n : Nat)
    (st : AutomationStatus) :
    (setAutomationStatusOnFirst l n st).length = l.length := by
  induction l with
  | nil => rfl
  | cons a t ih =>
    simp only [setAutomationStatusOnFirst]
    split <;> simp [ih]

theorem setAutomationStatusOnFirst_get?_cases (l : List GitHubIssue) (n : Nat)
    (st : AutomationStatus) (i : Nat) (iss : GitHubIssue) (h : l[i]? = some iss) :
    (setAutomationStatusOnFirst l n st)[i]? = some iss ∨
    (iss.number = n ∧ (setAutomationStatusOnFirst l n st)[i]? =
      some { iss with automation_status := some st }) := by
  induction l generalizing i with
  | nil => simp at h
  | cons a t ih =>
    cases i with
    | zero =>
      simp only [List.getElem?_cons_zero, Option.some.injEq] at h
      subst h
      by_cases hn : a.number = n
      · right
        exact ⟨hn, by simp [setAutomationStatusOnFirst, hn]⟩
      · left
        simp [setAutomationStatusOnFirst, hn]
    | succ j =>
      simp only [List.getElem?_cons_succ] at h
      by_cases hn : a.number = n
      · left
        simp [setAutomationStatusOnFirst, hn, h]
      · rcases ih j h with h1 | ⟨h2, h3⟩
        · left
          simp [setAutomationStatusOnFirst, hn, h1]
        · right
          exact ⟨h2, by simp [setAutomationStatusOnFirst, hn, h3]⟩

theorem setAutomationStatusOnFirst_get?_of_ne (l : List GitHubIssue) (n : Nat)
    (st : AutomationStatus) (i : Nat) (iss : GitHubIssue) (h : l[i]? = some iss)
    (hne : iss.number ≠ n) :
    (setAutomationStatusOnFirst l n st)[i]? = some iss := by
  rcases setAutomationStatusOnFirst_get?_cases l n st i iss h with h1 | ⟨h2, _⟩
  · exact h1
  · exact absurd h2 hne

theorem setAutomationStatusOnFirst_of_forall_ne (l : List GitHubIssue) (n : Nat)
    (st : AutomationStatus) (h : ∀ iss ∈ l, iss.number ≠ n) :
    setAutomationStatusOnFirst l n st = l := by
  induction l with
  | nil => rfl
  | cons a t ih =>
    have ha : a.number ≠ n := h a (List.mem_cons_self a t)
    simp only [setAutomationStatusOnFirst]
    rw [if_neg (by simp [ha])]
    exact congrArg (a :: ·) (ih fun x hx => h x (List.mem_cons_of_mem a hx))

theorem setAutomationStatusOnFirst_first_match (l : List GitHubIssue) (n : Nat)
    (st : AutomationStatus) (i : Nat) (iss : GitHubIssue) (h : l[i]? = some iss)
    (hn : iss.number = n)
    (hfirst : ∀ j iss', j < i → l[j]? = some iss' → iss'.number ≠ n) :
    (setAutomationStatusOnFirst l n st)[i]? =
      some { iss with automation_status := some st } := by
  induction l generalizing i with
  | nil => simp at h
  | cons a t ih =>
    cases i with
    | zero =>
      simp only [List.getElem?_cons_zero, Option.some.injEq] at h
      subst h
      simp [setAutomationStatusOnFirst, hn]
    | succ j =>
      simp only [List.getElem?_cons_succ] at h
      have ha : a.number ≠ n := hfirst 0 a (Nat.succ_pos j) (by simp)
      simp only [setAutomationStatusOnFirst]
      rw [if_neg (by simp [ha])]
      simp only [List.getElem?_cons_succ]
      exact ih j h fun k iss' hk hg =>
        hfirst (k + 1) iss' (Nat.succ_lt_succ hk) (by simpa using hg)

/-- Claim C4: when the primary GitHub fetch succeeds but the
automation-status fetch fails (transport error or non-2xx response),
`fetchIssues` still succeeds with the pull-request-filtered issue list
unmodified, and if the fetched items carried no `automation_status` none is
populated in the result. -/
theorem fetchIssues_automationFailure_spec
    (primary : HttpResponse (List FetchedItem))
    (automation : Except Unit (HttpResponse (Option (List (String × AutomationStatus)))))
    (hok : primary.ok = true)
    (hfail : automation = .error () ∨ ∃ r, automation = .ok r ∧ r.ok = false) :
    fetchIssuesModel primary automation =
      .ok ((filterOutPullRequests primary.body).map FetchedItem.issue) ∧
    ((∀ item ∈ primary.body, item.issue.automation_status = none) →
      ∀ issue ∈ (filterOutPullRequests primary.body).map FetchedItem.issue,
        issue.automation_status = none) := by
  constructor
  · rcases hfail with h | ⟨r, hr, hro⟩
    · subst h
      simp [fetchIssuesModel, hok]
    · subst hr
      simp [fetchIssuesModel, hok, hro]
  · intro hall issue hmem
    simp only [List.mem_map] at hmem
    obtain ⟨item, hitem, rfl⟩ := hmem
    have hin : item ∈ primary.body := by
      simp only [filterOutPullRequests, List.mem_filter] at hitem
      exact hitem.1
    exact hall item hin

/-- Concrete instantiation of `fetchIssues_automationFailure_spec`: the
primary fetch succeeds with two plain issues, the automation endpoint is
unreachable, and the two issues come back with no status populated. -/
theorem fetchIssues_automationFailure_spec_witness :
    let iss1 : GitHubIssue :=
      { id := 1, number := 1, title := "a", body := none, state := "open",
        created_at := "", updated_at := "", html_url := "",
        user := ⟨"u", ""⟩, labels := [], assignees := [] }
    let iss2 : GitHubIssue :=
      { id := 2, number := 2, title := "b", body := none, state := "open",
        created_at := "", updated_at := "", html_url := "",
        user := ⟨"u", ""⟩, labels := [], assignees := [] }
    let primary : HttpResponse (List FetchedItem) :=
      { ok := true, status := 200, statusText := "OK",
        body := [{ issue := iss1 }, { issue := iss2 }] }
    fetchIssuesModel primary (.error ()) = .ok [iss1, iss2] ∧
    ∀ issue ∈ (filterOutPullRequests primary.body).map FetchedItem.issue,
      issue.automation_status = none := by
  intro iss1 iss2 primary
  have h := fetchIssues_automationFailure_spec primary (.error ()) (by decide)
    (Or.inl rfl)
  exact ⟨h.1, h.2 (by decide)⟩

/-- Claim C5: a non-ok GitHub response makes `fetchIssues` fail with an
error carrying the HTTP status and reason phrase, and the rejected
transition of the issues slice sets `loading` to false, leaves the issue
list at its previous value, and sets `error` to a message containing the
status. -/
theorem fetchIssues_rejected_spec (primary : HttpResponse (List FetchedItem))
    (automation : Except Unit (HttpResponse (Option (List (String × AutomationStatus)))))
    (s : IssuesState) (hok : primary.ok = false) :
    fetchIssuesModel primary automation =
      .error { status := primary.status, statusText := primary.statusText } ∧
    (issuesReducer s (.fetchIssuesRejected
        (some (githubErrorMessage primary.status primary.statusText)))).loading = false ∧
    (issuesReducer s (.fetchIssuesRejected
        (some (githubErrorMessage primary.status primary.statusText)))).issues = s.issues ∧
    ∃ msg, (issuesReducer s (.fetchIssuesRejected
        (some (githubErrorMessage primary.status primary.statusText)))).error = some msg ∧
      strContainsSub msg (toString primary.status) = true := by
  refine ⟨by simp [fetchIssuesModel, hok], rfl, rfl,
    githubErrorMessage primary.status primary.statusText, ?_, ?_⟩
  · simp only [issuesReducer, jsOr, Option.some.injEq]
    rw [if_neg]
    simp only [beq_iff_eq]
    exact githubErrorMessage_ne_empty primary.status primary.statusText
  · exact githubErrorMessage_contains_status primary.status primary.statusText

/-- Concrete instantiation of `fetchIssues_rejected_spec`: an HTTP 403
response against a store holding one issue. -/
theorem fetchIssues_rejected_spec_witness :
    let iss1 : GitHubIssue :=
      { id := 1, number := 1, title := "a", body := none, state := "open",
        created_at := "", updated_at := "", html_url := "",
        user := ⟨"u", ""⟩, labels := [], assignees := [] }
    let primary : HttpResponse (List FetchedItem) :=
      { ok := false, status := 403, statusText := "Forbidden", body := [] }
    let s : IssuesState := { initialIssuesState with issues := [iss1] }
    fetchIssuesModel primary (.error ()) =
      .error { status := 403, statusText := "Forbidden" } ∧
    (issuesReducer s (.fetchIssuesRejected
        (some (githubErrorMessage 403 "Forbidden")))).issues = [iss1] := by
  intro iss1 primary s
  have h := fetchIssues_rejected_spec primary (.error ()) s (by decide)
  exact ⟨h.1, h.2.2.1⟩

/-- Claim C6: on a 2xx retry response, `retryAutomation` resolves with the
optimistic payload and the store immediately sets the (first) issue with
that number to `automation_status = \x7b status: "pending" \x7d`; on a
non-2xx response the thunk fails with an error carrying the HTTP status and
the store is left untouched (no rejected handler is registered). -/
theorem retryAutomation_spec (response : HttpResponse Unit) (n : Nat)
    (s : IssuesState) :
    (response.ok = true →
      retryAutomationModel n response = .ok { issueNumber := n, status := "pending" } ∧
      (∀ (i : Nat) (iss : GitHubIssue), s.issues[i]? = some iss → iss.number ≠ n →
        (issuesReducer s
          (.retryAutomationFulfilled ⟨n, "pending"⟩)).issues[i]? = some iss) ∧
      (∀ (i : Nat) (iss : GitHubIssue), s.issues[i]? = some iss → iss.number = n →
        (∀ (j : Nat) (iss' : GitHubIssue), j < i → s.issues[j]? = some iss' →
          iss'.number ≠ n) →
        (issuesReducer s
          (.retryAutomationFulfilled ⟨n, "pending"⟩)).issues[i]? =
            some { iss with automation_status := some pendingStatus })) ∧
    (response.ok = false →
      retryAutomationModel n response =
        .error ("Failed to retry automation: " ++ toString response.status) ∧
      strContainsSub ("Failed to retry automation: " ++ toString response.status)
        (toString response.status) = true ∧
      ∀ m, issuesReducer s (.retryAutomationRejected m) = s) := by
  constructor
  · intro hok
    refine ⟨by simp [retryAutomationModel, hok], ?_, ?_⟩
    · intro i iss hi hne
      exact setAutomationStatusOnFirst_get?_of_ne s.issues n pendingStatus i iss hi hne
    · intro i iss hi hn hfirst
      exact setAutomationStatusOnFirst_first_match s.issues n pendingStatus i iss hi hn hfirst
  · intro hok
    refine ⟨by simp [retryAutomationModel, hok], ?_, fun m => rfl⟩
    unfold strContainsSub
    rw [string_data_append]
    exact listContainsSub_append_left _ _ _ (listContainsSub_refl _)

/-- Concrete instantiation of `retryAutomation_spec`: retrying issue #42 on
a 2xx response immediately stamps it "pending". -/
theorem retryAutomation_spec_witness :
    let iss42 : GitHubIssue :=
      { id := 7, number := 42, title := "a", body := none, state := "open",
        created_at := "", updated_at := "", html_url := "",
        user := ⟨"u", ""⟩, labels := [], assignees := [] }
    let s : IssuesState := { initialIssuesState with issues := [iss42] }
    let response : HttpResponse Unit :=
      { ok := true, status := 200, statusText := "OK", body := () }
    retryAutomationModel 42 response = .ok { issueNumber := 42, status := "pending" } ∧
    (issuesReducer s (.retryAutomationFulfilled ⟨42, "pending"⟩)).issues[0]? =
      some { iss42 with automation_status := some pendingStatus } := by
  intro iss42 s response
  have h := (retryAutomation_spec response 42 s).1 (by decide)
  exact ⟨h.1, h.2.2 0 iss42 (by decide) (by decide)
    fun j iss' hj _ => absurd hj (Nat.not_lt_zero j)⟩

/-- Claim C7: `setFilters` merges a partial payload right-biased into the
current criteria: each provided field takes the payload's value, each
omitted field keeps its prior value, and the rest of the state is
untouched. -/
theorem setFilters_spec (s : IssuesState) (p : PartialIssueFilters) :
    (∀ v, p.state = some v →
      (issuesReducer s (.setFilters p)).filters.state = v) ∧
    (p.state = none →
      (issuesReducer s (.setFilters p)).filters.state = s.filters.state) ∧
    (∀ v, p.assignee = some v →
      (issuesReducer s (.setFilters p)).filters.assignee = v) ∧
    (p.assignee = none →
      (issuesReducer s (.setFilters p)).filters.assignee = s.filters.assignee) ∧
    (∀ v, p.label = some v →
      (issuesReducer s (.setFilters p)).filters.label = v) ∧
    (p.label = none →
      (issuesReducer s (.setFilters p)).filters.label = s.filters.label) ∧
    (∀ v, p.sort = some v →
      (issuesReducer s (.setFilters p)).filters.sort = v) ∧
    (p.sort = none →
      (issuesReducer s (.setFilters p)).filters.sort = s.filters.sort) ∧
    (∀ v, p.direction = some v →
      (issuesReducer s (.setFilters p)).filters.direction = v) ∧
    (p.direction = none →
      (issuesReducer s (.setFilters p)).filters.direction = s.filters.direction) ∧
    (issuesReducer s (.setFilters p)).issues = s.issues ∧
    (issuesReducer s (.setFilters p)).loading = s.loading ∧
    (issuesReducer s (.setFilters p)).error = s.error := by
  refine ⟨fun v hv => ?_, fun hv => ?_, fun v hv => ?_, fun hv => ?_,
    fun v hv => ?_, fun hv => ?_, fun v hv => ?_, fun hv => ?_,
    fun v hv => ?_, fun hv => ?_, rfl, rfl, rfl⟩ <;>
  simp [issuesReducer, spreadFilters, hv]

/-- Concrete instantiation of `setFilters_spec`: a payload updating only the
state field overwrites it and keeps the other four fields. -/
theorem setFilters_spec_witness :
    (issuesReducer initialIssuesState
      (.setFilters { state := some "open" })).filters.state = "open" ∧
    (issuesReducer initialIssuesState
      (.setFilters { state := some "open" })).filters.sort =
        initialIssuesState.filters.sort := by
  have h := setFilters_spec initialIssuesState { state := some "open" }
  exact ⟨h.1 "open" rfl, h.2.2.2.2.2.2.2.1 rfl⟩

/-- Claim C10: `updateIssueAutomationStatus` and the `retryAutomation`
success handler modify at most the `automation_status` of the single issue
whose number matches; every other issue and the `filters`, `loading` and
`error` fields are unchanged, and if no issue matches the whole state is
unchanged. -/
theorem updateIssueAutomationStatus_frame_spec (s : IssuesState) (n : Nat)
    (st : AutomationStatus) :
    ((issuesReducer s (.updateIssueAutomationStatus n st)).filters = s.filters ∧
      (issuesReducer s (.updateIssueAutomationStatus n st)).loading = s.loading ∧
      (issuesReducer s (.updateIssueAutomationStatus n st)).error = s.error) ∧
    ((issuesReducer s (.retryAutomationFulfilled ⟨n, "pending"⟩)).filters = s.filters ∧
      (issuesReducer s (.retryAutomationFulfilled ⟨n, "pending"⟩)).loading = s.loading ∧
      (issuesReducer s (.retryAutomationFulfilled ⟨n, "pending"⟩)).error = s.error) ∧
    (issuesReducer s (.updateIssueAutomationStatus n st)).issues.length =
      s.issues.length ∧
    (issuesReducer s (.retryAutomationFulfilled ⟨n, "pending"⟩)).issues.length =
      s.issues.length ∧
    (∀ (i : Nat) (iss : GitHubIssue), s.issues[i]? = some iss → iss.number ≠ n →
      (issuesReducer s (.updateIssueAutomationStatus n st)).issues[i]? = some iss ∧
      (issuesReducer s (.retryAutomationFulfilled ⟨n, "pending"⟩)).issues[i]? =
        some iss) ∧
    (∀ (i : Nat) (iss : GitHubIssue), s.issues[i]? = some iss →
      (issuesReducer s (.updateIssueAutomationStatus n st)).issues[i]? = some iss ∨
      (issuesReducer s (.updateIssueAutomationStatus n st)).issues[i]? =
        some { iss with automation_status := some st }) ∧
    (∀ (i : Nat) (iss : GitHubIssue), s.issues[i]? = some iss →
      (issuesReducer s (.retryAutomationFulfilled ⟨n, "pending"⟩)).issues[i]? =
        some iss ∨
      (issuesReducer s (.retryAutomationFulfilled ⟨n, "pending"⟩)).issues[i]? =
        some { iss with automation_status := some pendingStatus }) ∧
    ((∀ iss ∈ s.issues, iss.number ≠ n) →
      issuesReducer s (.updateIssueAutomationStatus n st) = s ∧
      issuesReducer s (.retryAutomationFulfilled ⟨n, "pending"⟩) = s) := by
  refine ⟨⟨rfl, rfl, rfl⟩, ⟨rfl, rfl, rfl⟩,
    setAutomationStatusOnFirst_length s.issues n st,
    setAutomationStatusOnFirst_length s.issues n pendingStatus, ?_, ?_, ?_, ?_⟩
  · intro i iss hi hne
    exact ⟨setAutomationStatusOnFirst_get?_of_ne s.issues n st i iss hi hne,
      setAutomationStatusOnFirst_get?_of_ne s.issues n pendingStatus i iss hi hne⟩
  · intro i iss hi
    rcases setAutomationStatusOnFirst_get?_cases s.issues n st i iss hi with h | ⟨_, h⟩
    · exact Or.inl h
    · exact Or.inr h
  · intro i iss hi
    rcases setAutomationStatusOnFirst_get?_cases s.issues n pendingStatus i iss hi
      with h | ⟨_, h⟩
    · exact Or.inl h
    · exact Or.inr h
  · intro hall
    constructor
    · show { s with issues := setAutomationStatusOnFirst s.issues n st } = s
      rw [setAutomationStatusOnFirst_of_forall_ne s.issues n st hall]
    · show { s with issues := setAutomationStatusOnFirst s.issues n pendingStatus } = s
      rw [setAutomationStatusOnFirst_of_forall_ne s.issues n pendingStatus hall]

/-- Concrete instantiation of `updateIssueAutomationStatus_frame_spec`: a
store with one issue numbered 5; updating number 9 is a silent no-op. -/
theorem updateIssueAutomationStatus_frame_spec_witness :
    let iss5 : GitHubIssue :=
      { id := 5, number := 5, title := "a", body := none, state := "open",
        created_at := "", updated_at := "", html_url := "",
        user := ⟨"u", ""⟩, labels := [], assignees := [] }
    let s : IssuesState := { initialIssuesState with issues := [iss5] }
    issuesReducer s (.updateIssueAutomationStatus 9 pendingStatus) = s ∧
    issuesReducer s (.retryAutomationFulfilled ⟨9, "pending"⟩) = s := by
  intro iss5 s
  exact (updateIssueAutomationStatus_frame_spec s 9
    pendingStatus).2.2.2.2.2.2.2 (by decide)

/-- Embedding of the `Repository` TS type (the `github_access` decoration,
typed `Record<string, unknown>` maps in the source, carries no data the
dashboard flow reads and is omitted). -/
structure Repository where
  id : String
  user_id : String
  name : String
  full_name : String
  description : Option String
  url : String
  created_at : String
  updated_at : String
deriving DecidableEq, Repr

/-- Embedding of `RepositoryState` from `repositorySlice`. -/
structure RepositoryState where
  repositories : List Repository
  selectedRepository : Option Repository
  loading : Bool
  error : Option String
deriving DecidableEq, Repr

/-- The repository picked in the browser dialog
(`selectedRepoFromBrowser`). -/
structure RepoCandidate where
  id : Nat
  name : String
  full_name : String
  description : Option String
  html_url : String
deriving DecidableEq, Repr

/-- Outcome of the `validateAndAddRepository` handler of the dashboard page:
either one of the client-side rejections (each surfaced as a toast message,
with no network call made), or the decision to dispatch `addRepository`
with the given payload. -/
inductive AddRepoOutcome
  | noSelection (message : String)
  | noUser (message : String)
  | duplicate (message : String)
  | networkAdd (userId : String) (name : String) (full_name : String)
      (description : Option String) (url : String)
deriving DecidableEq, Repr

/-- JS `description || undefined`: the empty string is falsy and becomes
`undefined`. -/
def jsOrUndefined (v : Option String) : Option String :=
  match v with
  | some s => if s == "" then none else some s
  | none => none

/-- The validation part of `validateAndAddRepository` (DashboardPage lines
89-125): require a selected repository and a user, then reject client-side
when `repositories.find(r => r.full_name === full_name)` hits, and only
otherwise dispatch `addRepository`. -/
def validateAndAddRepository (selected : Option RepoCandidate)
    (user : Option String) (repositories : List Repository) : AddRepoOutcome :=
  match selected with
  | none => .noSelection "Please select a repository"
  | some repo =>
    match user with
    | none => .noUser "User not authenticated"
    | some userId =>
      match repositories.find? (fun r => r.full_name == repo.full_name) with
      | some _ => .duplicate "This repository is already added"
      | none => .networkAdd userId repo.name repo.full_name
          (jsOrUndefined repo.description) repo.html_url

/-- The `addRepository.pending` case of `repositorySlice`. -/
def addRepositoryPendingReducer (s : RepositoryState) : RepositoryState :=
  { s with loading := true, error := none }

/-- The `addRepository.fulfilled` case of `repositorySlice`
(`state.repositories.unshift(action.payload)`). -/
def addRepositoryFulfilledReducer (s : RepositoryState) (repo : Repository) :
    RepositoryState :=
  { s with loading := false, repositories := repo :: s.repositories, error := none }

/-- The `addRepository.rejected` case of `repositorySlice`. -/
def addRepositoryRejectedReducer (s : RepositoryState) (m : Option String) :
    RepositoryState :=
  { s with loading := false, error := some (jsOr m "Failed to add repository") }

/-- The add-repository interaction end to end: when validation passes, the
`addRepository` thunk is dispatched (pending reducer, then the network
result's fulfilled or rejected reducer); any client-side rejection leaves
the store untouched because no action is dispatched. -/
def addRepositoryFlow (s : RepositoryState) (selected : Option RepoCandidate)
    (user : Option String) (networkResult : Except String Repository) :
    RepositoryState × AddRepoOutcome :=
  match validateAndAddRepository selected user s.repositories with
  | .networkAdd userId name full_name description url =>
    let afterPending := addRepositoryPendingReducer s
    (match networkResult with
      | .ok repo => addRepositoryFulfilledReducer afterPending repo
      | .error m => addRepositoryRejectedReducer afterPending (some m),
     .networkAdd userId name full_name description url)
  | outcome => (s, outcome)

/-- Claim C9: adding a candidate whose `full_name` already occurs in the
in-memory repository list is rejected client-side with the "already added"
message: no network call is made and the repository list (indeed the whole
store state) is unchanged, whatever the create endpoint would have
answered. -/
theorem duplicateRepository_rejected_spec (s : RepositoryState)
    (candidate : RepoCandidate) (userId : String)
    (networkResult : Except String Repository)
    (hdup : ∃ r ∈ s.repositories, r.full_name = candidate.full_name) :
    validateAndAddRepository (some candidate) (some userId) s.repositories =
      .duplicate "This repository is already added" ∧
    (∀ args1 args2 args3 args4 args5,
      validateAndAddRepository (some candidate) (some userId) s.repositories ≠
        .networkAdd args1 args2 args3 args4 args5) ∧
    (addRepositoryFlow s (some candidate) (some userId) networkResult).1 = s ∧
    (addRepositoryFlow s (some candidate) (some userId) networkResult).1.repositories =
      s.repositories := by
  have hfind : (s.repositories.find?
      (fun r => r.full_name == candidate.full_name)).isSome = true := by
    rw [List.find?_isSome]
    obtain ⟨r, hr, he⟩ := hdup
    exact ⟨r, hr, by simp [he]⟩
  obtain ⟨r0, hr0⟩ := Option.isSome_iff_exists.mp hfind
  have hval : validateAndAddRepository (some candidate) (some userId)
      s.repositories = .duplicate "This repository is already added" := by
    simp [validateAndAddRepository, hr0]
  refine ⟨hval, ?_, ?_, ?_⟩
  · intro a1 a2 a3 a4 a5
    rw [hval]
    intro hcontra
    exact absurd hcontra (by simp)
  · simp [addRepositoryFlow, hval]
  · simp [addRepositoryFlow, hval]

/-- Concrete instantiation of `duplicateRepository_rejected_spec`: the list
already holds `octo/repo` and the candidate is `octo/repo` again; even a
would-be-successful network response leaves the store unchanged. -/
theorem duplicateRepository_rejected_spec_witness :
    let existing : Repository :=
      { id := "1", user_id := "u1", name := "repo", full_name := "octo/repo",
        description := none, url := "", created_at := "", updated_at := "" }
    let s : RepositoryState :=
      { repositories := [existing], selectedRepository := none,
        loading := false, error := none }
    let candidate : RepoCandidate :=
      { id := 10, name := "repo", full_name := "octo/repo",
        description := none, html_url := "" }
    validateAndAddRepository (some candidate) (some "u1") s.repositories =
      .duplicate "This repository is already added" ∧
    (addRepositoryFlow s (some candidate) (some "u1")
      (.ok existing)).1.repositories = [existing] := by
  intro existing s candidate
  have h := duplicateRepository_rejected_spec s candidate "u1" (.ok existing)
    ⟨existing, by decide, by decide⟩
  exact ⟨h.1, h.2.2.2⟩
